import Mathlib

/-!
Verification of the miniATLAS autonomous browser-agent core against its
natural-language specification.

The Python sources under `app/` are embedded shallowly:

* `app/validators.py`  — `ActionValidator` (pattern scans, fill/click/goto
  validation, the "requires human confirmation" query);
* `app/agent_loop.py`  — `AgentLoop.run` / `AgentLoop._run_step`, with the
  page, CAPTCHA handler, LLM client and action executor abstracted as
  per-step oracles;
* `app/actions.py`     — `ActionExecutor.execute` dispatch and the click
  selector-healing retry path;
* `app/utils/selectors.py` — `heal_selector`;
* `app/netwatch.py`    — `NetworkMonitor` request/response correlation.

Strings are Lean `String`s; character-level work goes through `.data`.
Python `time.time()` floats are modelled as rationals.  Machine behaviour
that the code only observes through Playwright (whether a selector
resolves, what the LLM returns, response status codes, wall-clock reads)
is passed in as explicit oracle data.
-/

namespace MiniAtlas

/-! ### Python string primitives

`pyLower` models `str.lower` on the ASCII range (the only range the
validator's patterns and markers use).  `pyIn n h` models Python's
`n in h` substring test.  -/

def lowerChar (c : Char) : Char :=
  if 'A' ≤ c ∧ c ≤ 'Z' then Char.ofNat (c.toNat + 32) else c

def pyLower (s : String) : String := ⟨s.data.map lowerChar⟩

def pyIn (needle haystack : String) : Bool :=
  decide (needle.data <:+: haystack.data)

/-- `startswith` for a single-string prefix argument. -/
def pyStartsWith (s pre : String) : Bool := pre.data.isPrefixOf s.data

/-- `str.strip(chars)`: remove any leading and trailing characters drawn
from `chars`. -/
def pyStrip (chars : String) (s : String) : String :=
  ⟨((s.data.dropWhile (fun c => chars.data.contains c)).reverse.dropWhile
      (fun c => chars.data.contains c)).reverse⟩

/-- `str.split(sep)` for a non-empty separator, fuelled by the length of
the input (each step consumes at least one character, so the fuel never
runs out when initialised with the input length). -/
def pySplitGo (sep : List Char) : Nat → List Char → List Char → List (List Char)
  | _, [], acc => [acc.reverse]
  | 0, cs, acc => [acc.reverse ++ cs]
  | fuel + 1, c :: rest, acc =>
    if sep.isPrefixOf (c :: rest) then
      acc.reverse :: pySplitGo sep fuel (List.drop (sep.length - 1) rest) []
    else
      pySplitGo sep fuel rest (c :: acc)

def pySplit (sep : String) (s : String) : List String :=
  (pySplitGo sep.data s.data.length s.data []).map List.asString

/-! ### Regex semantics for the validator's fill patterns

`re.match(r'^\d{13,19}$', v)` and `re.match(r'^\d{3}-\d{2}-\d{4}$', v)`.
`re.match` anchors at the start; Python's `$` matches at the end of the
string **or just before a newline at the end of the string**, i.e. the
position just before the last character when that character is `'\n'`.
`\d` is modelled on the ASCII decimal digits (`Char.isDigit`); the
claims only exercise ASCII values. -/

/-- Does `$` match at offset `k` of `cs`?  Either `k` is the end of the
string, or `k` is the position of the last character and that character
is a newline. -/
def dollarAt (cs : List Char) (k : Nat) : Bool :=
  k = cs.length || (k + 1 = cs.length && cs.getLast? = some '\n')

/-- `re.match(r'^\d{13,19}$', value) is not None`: some repetition count
`k ∈ [13,19]` has the first `k` characters all digits and `$` matching
right after them. -/
def reMatchCard (cs : List Char) : Bool :=
  (List.range 20).any fun k =>
    decide (13 ≤ k) && decide (k ≤ cs.length) &&
    (cs.take k).all Char.isDigit && dollarAt cs k

/-- The fixed-width body `\d{3}-\d{2}-\d{4}` (length 11, no choice
points). -/
def ssnShape : List Char → Bool
  | [a, b, c, '-', d, e, '-', f, g, h, i] =>
    a.isDigit && b.isDigit && c.isDigit && d.isDigit && e.isDigit &&
    f.isDigit && g.isDigit && h.isDigit && i.isDigit
  | _ => false

/-- `re.match(r'^\d{3}-\d{2}-\d{4}$', value) is not None`. -/
def reMatchSSN (cs : List Char) : Bool :=
  decide (11 ≤ cs.length) && ssnShape (cs.take 11) && dollarAt cs 11

/-! ### Regex semantics for the click pattern families

Every pattern in `PAYMENT_PATTERNS` / `DELETION_PATTERNS` /
`FILE_PATTERNS` is a sequence of literal words joined by `\s*`; a
pattern is represented as its list of literal segments.  `re.search`
succeeds iff the segments occur left to right from some start position,
with only whitespace (possibly none) between consecutive segments.
The scans run on the already-lowercased selector with lowercase
patterns, so `re.IGNORECASE` adds nothing.  `\s` is the ASCII
whitespace class. -/

def isSpaceChar (c : Char) : Bool :=
  c = ' ' || c = '\t' || c = '\n' || c = '\r' || c = '\x0b' || c = '\x0c'

/-- Match the remaining segments, each preceded by `\s*` (any number of
whitespace characters skipped, chosen nondeterministically). -/
def matchGap : List (List Char) → List Char → Bool
  | [], _ => true
  | seg :: rest, cs =>
    (List.range ((cs.takeWhile isSpaceChar).length + 1)).any fun k =>
      seg.isPrefixOf (cs.drop k) && matchGap rest (cs.drop (k + seg.length))

/-- Match the whole segment list starting exactly here. -/
def matchHere : List (List Char) → List Char → Bool
  | [], _ => true
  | seg :: rest, cs => seg.isPrefixOf cs && matchGap rest (cs.drop seg.length)

/-- `re.search(pattern, s)`: the pattern matches starting at some
position of `s`. -/
def reSearch (pat : List (List Char)) (s : String) : Bool :=
  (List.range (s.data.length + 1)).any fun i => matchHere pat (s.data.drop i)

/-- Scan a list of patterns the way the validator's `for pattern in …`
loops do: succeed iff some pattern matches. -/
def anyPattern (pats : List (List (List Char))) (s : String) : Bool :=
  pats.any fun p => reSearch p s

/-! ### Configuration (`app/config.py`)

Only the fields the core reads.  The field defaults are the pydantic
defaults of `SecurityConfig`, `AgentConfig` and `NetworkConfig`; the
`Config` built from an absent `configs/config.yaml` and a default
environment is exactly `{}`. -/

structure SecurityConfig where
  block_file_dialogs : Bool := true
  block_downloads : Bool := true
  confirm_sensitive_actions : Bool := true
deriving DecidableEq, Repr

structure AgentConfig where
  max_steps : Nat := 30
  allow_navigation : Bool := true
  screenshot_every_step : Bool := true
  vision_enabled : Bool := true
  wait_after_action_ms : Nat := 500
deriving DecidableEq, Repr

structure NetworkConfig where
  record_responses : Bool := true
  max_payload_kb : Nat := 256
  verify_backend_success : Bool := true
deriving DecidableEq, Repr

structure Config where
  security : SecurityConfig := {}
  agent : AgentConfig := {}
  network : NetworkConfig := {}
deriving DecidableEq, Repr

/-! ### Actions (`app/schemas.py`)

`ActionType` is a `str`-valued enum and every dispatch in the code
compares `action.action` against its members, which for a `str` enum is
string comparison; the tag is therefore modelled as a `String`, with the
eight known values as constants.  The per-variant payload fields are
flattened into one record (each handler only reads the fields its
variant carries); defaults mirror the pydantic defaults. -/

def ActionType.CLICK : String := "click"
def ActionType.FILL : String := "fill"
def ActionType.GOTO : String := "goto"
def ActionType.PRESS : String := "press"
def ActionType.SELECT : String := "select"
def ActionType.WAIT_FOR_SELECTOR : String := "wait_for_selector"
def ActionType.ASSERT_URL_INCLUDES : String := "assert_url_includes"
def ActionType.DONE : String := "done"

structure AgentAction where
  action : String
  selector : String := ""
  value : String := ""
  url : String := ""
  key : String := ""
  summary : String := ""
  press_enter : Bool := false
  timeout_ms : Nat := 10000
deriving DecidableEq, Repr

/-! ### The validator (`app/validators.py`) -/

/-- `ActionValidator.PAYMENT_PATTERNS`; each regex `a\s*b` appears as
its literal segments `[a, b]`. -/
def PAYMENT_PATTERNS : List (List (List Char)) :=
  [["payment".data], ["checkout".data], ["purchase".data],
   ["buy".data, "now".data], ["place".data, "order".data],
   ["confirm".data, "order".data], ["submit".data, "payment".data],
   ["pay".data, "now".data]]

/-- `ActionValidator.DELETION_PATTERNS`. -/
def DELETION_PATTERNS : List (List (List Char)) :=
  [["delete".data], ["remove".data], ["destroy".data], ["erase".data],
   ["clear".data, "all".data], ["permanently".data]]

/-- `ActionValidator.FILE_PATTERNS`. -/
def FILE_PATTERNS : List (List (List Char)) :=
  [["upload".data], ["file".data], ["attachment".data], ["browse".data],
   ["choose".data, "file".data]]

/-- Per-instance allow/block lists (`self.allowed_domains`,
`self.blocked_domains`); both are empty on the global
`action_validator`. -/
structure ValidatorState where
  allowed_domains : List String := []
  blocked_domains : List String := []
deriving DecidableEq, Repr

/-- `urlparse(url).netloc` for the absolute `http(s)://host/…` URLs the
agent handles: the text between the first `"://"` and the next `/`, `?`
or `#` (empty when the URL has no `"://"`).  No claim exercises the
navigation branch; this models the common case. -/
def netlocFrom : List Char → List Char
  | [] => []
  | c :: rest =>
    if ":/".data ++ ['/'] |>.isPrefixOf (c :: rest) then
      (c :: rest).drop 3 |>.takeWhile fun d => ¬(d = '/' ∨ d = '?' ∨ d = '#')
    else netlocFrom rest

def netloc (url : String) : String := ⟨netlocFrom url.data⟩

/-- `ActionValidator._validate_navigation`. -/
def validate_navigation (cfg : Config) (v : ValidatorState)
    (a : AgentAction) (current_url : String) : Bool × Option String :=
  let current_netloc := netloc current_url
  let target_netloc := netloc a.url
  if ¬cfg.agent.allow_navigation ∧ current_netloc ≠ target_netloc then
    (false, some "Cross-origin navigation not allowed")
  else if v.allowed_domains ≠ [] ∧ target_netloc ∉ v.allowed_domains then
    (false, some ("Domain " ++ target_netloc ++ " not in allowed list"))
  else if target_netloc ∈ v.blocked_domains then
    (false, some ("Domain " ++ target_netloc ++ " is blocked"))
  else
    (true, none)

/-- `ActionValidator._validate_click`. -/
def validate_click (cfg : Config) (a : AgentAction) : Bool × Option String :=
  let selector := pyLower a.selector
  if cfg.security.block_file_dialogs ∧ anyPattern FILE_PATTERNS selector then
    (false, some "File dialog actions are blocked")
  else if cfg.security.confirm_sensitive_actions ∧
      anyPattern PAYMENT_PATTERNS selector then
    (false, some "Payment actions require manual confirmation")
  else if cfg.security.confirm_sensitive_actions ∧
      anyPattern DELETION_PATTERNS selector then
    (false, some "Deletion actions require manual confirmation")
  else
    (true, none)

/-- `ActionValidator._validate_fill`.  In the source each `re.match`
only denies inside an `if config.security.confirm_sensitive_actions:`
guard (otherwise it merely logs and falls through), which is the nested
conjunction below. -/
def validate_fill (cfg : Config) (a : AgentAction) : Bool × Option String :=
  if reMatchCard a.value.data ∧ cfg.security.confirm_sensitive_actions then
    (false, some "Credit card input requires manual confirmation")
  else if reMatchSSN a.value.data ∧ cfg.security.confirm_sensitive_actions then
    (false, some "SSN input requires manual confirmation")
  else
    (true, none)

/-- `ActionValidator.validate_action`. -/
def validate_action (cfg : Config) (v : ValidatorState)
    (a : AgentAction) (current_url : String) : Bool × Option String :=
  if a.action = ActionType.GOTO then
    validate_navigation cfg v a current_url
  else if a.action = ActionType.CLICK then
    validate_click cfg a
  else if a.action = ActionType.FILL then
    validate_fill cfg a
  else if a.action = ActionType.PRESS ∨ a.action = ActionType.SELECT then
    (true, none)
  else if a.action = ActionType.WAIT_FOR_SELECTOR then
    if 60000 < a.timeout_ms then
      (false, some "Wait timeout exceeds maximum allowed (60s)")
    else (true, none)
  else if a.action = ActionType.ASSERT_URL_INCLUDES then
    (true, none)
  else if a.action = ActionType.DONE then
    (true, none)
  else
    (true, none)

/-- `ActionValidator.requires_human_confirmation`. -/
def requires_human_confirmation (cfg : Config) (a : AgentAction) : Bool :=
  if ¬cfg.security.confirm_sensitive_actions then
    false
  else if a.action = ActionType.CLICK then
    anyPattern (PAYMENT_PATTERNS ++ DELETION_PATTERNS) (pyLower a.selector)
  else if a.action = ActionType.FILL then
    reMatchCard a.value.data || reMatchSSN a.value.data
  else
    false

/-! ### Selector healing (`app/utils/selectors.py`) -/

/-- `heal_selector(original_selector, error_message)`.  The
`error_message.split('text=')[1]` index is guarded by
`'text=' in error_message`, so the `getD` defaults are never used on
the guarded path. -/
def heal_selector (original_selector error_message : String) : List String :=
  let branch :=
    if pyStartsWith original_selector "[" || pyStartsWith original_selector "#" ||
        pyStartsWith original_selector "." then
      if pyIn "text=" error_message then
        let text_match :=
          pyStrip "\"" ((pySplit " " ((pySplit "text=" error_message).getD 1 "")).getD 0 "")
        ["text=" ++ text_match]
      else []
    else if pyStartsWith original_selector "text=" then
      let text := pyStrip "\"" ⟨original_selector.data.drop 5⟩
      ["text=/" ++ text ++ "/i",
       ":has-text(\"" ++ text ++ "\")",
       "role=button[name=\"" ++ text ++ "\"]",
       "role=link[name=\"" ++ text ++ "\"]",
       "[aria-label=\"" ++ text ++ "\"]"]
    else []
  branch ++ [original_selector ++ ":visible", original_selector ++ " >> nth=0"]

/-! ### The action executor (`app/actions.py`)

A Python call that either returns a value or raises is modelled as
`PyResult`.  The Playwright side of each `_execute_*` handler is an
oracle: `ExecEnv` holds the triple each handler would return, or the
exception it would leak, for the page in front of it.  `execute`'s own
`try/except` is the `match` in `ActionExecutor.execute`. -/

inductive PyResult (α : Type) where
  | ok (val : α)
  | raised (msg : String)
deriving DecidableEq, Repr

/-- A `result_data` dict, with values rendered as strings. -/
abbrev ExecData := List (String × String)

/-- `(success, error_message, result_data)`. -/
abbrev ExecTriple := Bool × Option String × Option ExecData

structure ExecEnv where
  click : PyResult ExecTriple
  fill : PyResult ExecTriple
  goto : PyResult ExecTriple
  press : PyResult ExecTriple
  select : PyResult ExecTriple
  wait : PyResult ExecTriple
  assert_url : PyResult ExecTriple
deriving Repr

/-- The body of `ActionExecutor.execute`'s `try:` — route to the
handler by tag; the `done` variant returns inline and the final `else`
reports an unknown tag. -/
def ActionExecutor.dispatch (env : ExecEnv) (a : AgentAction) : PyResult ExecTriple :=
  if a.action = ActionType.CLICK then env.click
  else if a.action = ActionType.FILL then env.fill
  else if a.action = ActionType.GOTO then env.goto
  else if a.action = ActionType.PRESS then env.press
  else if a.action = ActionType.SELECT then env.select
  else if a.action = ActionType.WAIT_FOR_SELECTOR then env.wait
  else if a.action = ActionType.ASSERT_URL_INCLUDES then env.assert_url
  else if a.action = ActionType.DONE then
    .ok (true, none, some [("summary", a.summary)])
  else
    .ok (false, some ("Unknown action type: " ++ a.action), none)

/-- `ActionExecutor.execute`: the surrounding `try/except Exception`
turns any leaked exception into `(False, str(e), None)`. -/
def ActionExecutor.execute (env : ExecEnv) (a : AgentAction) : ExecTriple :=
  match ActionExecutor.dispatch env a with
  | .ok t => t
  | .raised e => (false, some e, none)

/-! #### `_execute_click` with selector healing -/

/-- What the primary-selector interaction does: succeeds, raises
`PlaywrightTimeout`, or raises some other exception with a message. -/
inductive ClickPrimaryOutcome where
  | ok
  | timeoutErr
  | otherErr (msg : String)
deriving DecidableEq, Repr

structure ClickEnv where
  primary : ClickPrimaryOutcome
  /-- `count > 1` for the primary locator on the success path. -/
  multiple_found : Bool := false
  /-- Whether the wait-and-click on a healed alternative succeeds; any
  exception there is swallowed by the bare `except: continue`. -/
  tryAlt : String → Bool := fun _ => false
  /-- The `.first` retry in the strict-mode-violation branch. -/
  strictRetry : PyResult Unit := .raised ""

/-- The `for alt_selector in alternatives[:3]` loop: first alternative
whose try-block succeeds, if any. -/
def firstSuccess (f : String → Bool) : List String → Option String
  | [] => none
  | c :: rest => if f c then some c else firstSuccess f rest

/-- `ActionExecutor._execute_click`. -/
def execute_click (env : ClickEnv) (selector : String) : ExecTriple :=
  match env.primary with
  | .ok =>
    (true, none, some [("clicked", selector),
                       ("multiple_found", if env.multiple_found then "True" else "False")])
  | .timeoutErr =>
    match firstSuccess env.tryAlt ((heal_selector selector "Element not found").take 3) with
    | some alt => (true, none, some [("clicked", alt), ("healed", "True")])
    | none => (false, some ("Element not found or not clickable: " ++ selector), none)
  | .otherErr msg =>
    if pyIn "strict mode violation" (pyLower msg) || pyIn "resolved to" (pyLower msg) then
      match env.strictRetry with
      | .ok _ => (true, none, some [("clicked", selector), ("used_first", "True")])
      | .raised e => (false, some ("Click failed (multiple elements): " ++ e), none)
    else
      (false, some ("Click failed: " ++ msg), none)

/-! ### The network monitor (`app/netwatch.py`)

`time.time()` values are rationals supplied by the caller; each handler
takes the instant at which it runs (the two adjacent `time.time()`
reads inside `on_request` are one instant).  `_request_start_times` is
a Python dict keyed by `"METHOD:url"`, modelled as an association list
with insert-replaces-existing semantics.  Payload sizes are compared in
characters. -/

structure RequestInfo where
  method : String
  url : String
  resource_type : Option String := none
  headers : List (String × String) := []
  post_data : Option String := none
  failure : Option String := none
deriving DecidableEq, Repr

structure ResponseInfo where
  request : RequestInfo
  status : Nat
  headers : List (String × String) := []
  body : Option String := none
deriving DecidableEq, Repr

structure NetworkEvent where
  timestamp : ℚ
  method : String
  url : String
  status : Option Nat := none
  response_time_ms : Option ℚ := none
  request_headers : Option (List (String × String)) := none
  response_headers : Option (List (String × String)) := none
  request_body : Option String := none
  response_body : Option String := none
  resource_type : Option String := none
  failure : Option String := none
deriving DecidableEq, Repr

/-- `NetworkEvent.is_xhr_or_fetch`. -/
def NetworkEvent.is_xhr_or_fetch (e : NetworkEvent) : Bool :=
  e.resource_type = some "xhr" || e.resource_type = some "fetch"

/-- `NetworkEvent.is_success`. -/
def NetworkEvent.is_success (e : NetworkEvent) : Bool :=
  match e.status with
  | some s => decide (200 ≤ s) && decide (s < 300)
  | none => false

/-- `NetworkEvent.is_api_call`. -/
def NetworkEvent.is_api_call (e : NetworkEvent) : Bool :=
  e.is_xhr_or_fetch || pyIn "/api/" e.url || pyIn "/v1/" e.url ||
  pyIn "/v2/" e.url || ".json".data.isSuffixOf e.url.data

structure NetworkMonitor where
  events : List NetworkEvent := []
  request_start_times : List (String × ℚ) := []
  enabled : Bool := true
  max_payload_bytes : Nat := 256 * 1024
deriving DecidableEq, Repr

/-- `NetworkMonitor.__init__`. -/
def NetworkMonitor.init (cfg : Config) : NetworkMonitor :=
  { enabled := cfg.network.record_responses,
    max_payload_bytes := cfg.network.max_payload_kb * 1024 }

def dictInsert (k : String) (q : ℚ) : List (String × ℚ) → List (String × ℚ)
  | [] => [(k, q)]
  | (k', v') :: rest =>
    if k' = k then (k, q) :: rest else (k', v') :: dictInsert k q rest

def dictGet? (k : String) (d : List (String × ℚ)) : Option ℚ :=
  (d.find? fun kv => kv.1 = k).map fun kv => kv.2

def dictErase (k : String) : List (String × ℚ) → List (String × ℚ)
  | [] => []
  | (k', v') :: rest =>
    if k' = k then rest else (k', v') :: dictErase k rest

/-- Index (from the front) of the last element satisfying `p` — what
the `for event in reversed(self.events)` searches find. -/
def lastIdxWhere (p : α → Bool) : List α → Option Nat
  | [] => none
  | x :: xs =>
    match lastIdxWhere p xs with
    | some i => some (i + 1)
    | none => if p x then some 0 else none

/-- In-place update of the element at index `i`. -/
def listModify (f : α → α) : Nat → List α → List α
  | _, [] => []
  | 0, x :: xs => f x :: xs
  | n + 1, x :: xs => x :: listModify f n xs

/-- The match condition of both reversed searches:
`event.method == request.method and event.url == request.url and
event.status is None`. -/
def matchesPending (req : RequestInfo) (e : NetworkEvent) : Bool :=
  e.method = req.method && e.url = req.url && e.status = none

/-- `NetworkMonitor.on_request` at instant `t`. -/
def on_request (cfg : Config) (t : ℚ) (req : RequestInfo)
    (m : NetworkMonitor) : NetworkMonitor :=
  if ¬m.enabled then m
  else
    let request_id := req.method ++ ":" ++ req.url
    let event : NetworkEvent :=
      { timestamp := t, method := req.method, url := req.url,
        resource_type := req.resource_type,
        request_headers :=
          if cfg.network.verify_backend_success then some req.headers else none,
        request_body :=
          if req.method = "POST" ∨ req.method = "PUT" ∨ req.method = "PATCH" then
            match req.post_data with
            | some d =>
              if d ≠ "" ∧ d.length ≤ m.max_payload_bytes then some d else none
            | none => none
          else none }
    { m with
      request_start_times := dictInsert request_id t m.request_start_times,
      events := m.events ++ [event] }

/-- `NetworkMonitor.on_response` at instant `t`. -/
def on_response (cfg : Config) (t : ℚ) (resp : ResponseInfo)
    (m : NetworkMonitor) : NetworkMonitor :=
  if ¬m.enabled then m
  else
    let req := resp.request
    let request_id := req.method ++ ":" ++ req.url
    match lastIdxWhere (matchesPending req) m.events with
    | none => m
    | some i =>
      let start? := dictGet? request_id m.request_start_times
      let upd := fun (e : NetworkEvent) =>
        { e with
          status := some resp.status,
          response_time_ms :=
            match start? with
            | some st => some ((t - st) * 1000)
            | none => e.response_time_ms,
          response_headers :=
            if cfg.network.verify_backend_success then some resp.headers
            else e.response_headers,
          response_body :=
            if e.is_api_call then
              match resp.body with
              | some b =>
                if b ≠ "" ∧ b.length ≤ m.max_payload_bytes then some b
                else e.response_body
              | none => e.response_body
            else e.response_body }
      { m with
        events := listModify upd i m.events,
        request_start_times :=
          match start? with
          | some _ => dictErase request_id m.request_start_times
          | none => m.request_start_times }

/-- `NetworkMonitor.on_request_failed`. -/
def on_request_failed (req : RequestInfo) (m : NetworkMonitor) : NetworkMonitor :=
  if ¬m.enabled then m
  else
    match lastIdxWhere (matchesPending req) m.events with
    | none => m
    | some i =>
      { m with
        events := listModify (fun e => { e with failure := req.failure }) i m.events }

/-- `NetworkMonitor.get_recent_events` queried at instant `now`. -/
def get_recent_events (now seconds : ℚ) (api_only success_only : Bool)
    (m : NetworkMonitor) : List NetworkEvent :=
  let cutoff_time := now - seconds
  let events := m.events.filter fun e => cutoff_time ≤ e.timestamp
  let events := if api_only then events.filter NetworkEvent.is_api_call else events
  if success_only then events.filter NetworkEvent.is_success else events

/-! ### The agent loop (`app/agent_loop.py`)

`AgentLoop.run` drives `_run_step` until a terminal condition.  A step
is deterministic given the outcomes of its awaited calls, so each
iteration receives a `StepEnv` oracle: the page URL, the CAPTCHA
detector/handler outcome, the LLM's answer, the executor's page
behaviour and the network events visible in the post-fill check.
Observation gathering (`_observe`) only feeds the LLM prompt and the
step's `observation` field, which no claim reads; it is omitted from
the step record. -/

inductive SessionStatus where
  | running
  | completed
  | failed
  | stopped
  | waiting_human
deriving DecidableEq, Repr

structure AgentStep where
  step_number : Nat
  reasoning : String
  action : Option AgentAction := none
  result : Option String := none
  error : Option String := none
deriving DecidableEq, Repr

structure AgentSession where
  url : String := ""
  goals : List String := []
  status : SessionStatus := .running
  steps : List AgentStep := []
deriving DecidableEq, Repr

/-- `AgentSession.steps_count`. -/
def AgentSession.steps_count (s : AgentSession) : Nat := s.steps.length

/-- `AgentSession.is_active`. -/
def AgentSession.is_active (s : AgentSession) : Bool :=
  s.status = .running || s.status = .waiting_human

/-- Python's `a or b` for an optional string `a` and default `b`:
`None` and the empty string fall back to the default. -/
def pyOrElse (a : Option String) (b : String) : String :=
  match a with
  | some s => if s = "" then b else s
  | none => b

structure StepEnv where
  /-- `page.url` as seen by the validation call. -/
  pageUrl : String := ""
  /-- CAPTCHA detection: `none` when the detector reports no CAPTCHA,
  otherwise the `(success, error)` pair `captcha_handler.handle` would
  return if invoked. -/
  captcha : Option (Bool × Option String) := none
  /-- `llm_client.generate_action`: an exception, or `None`
  (schema-invalid output), or an action. -/
  llm : PyResult (Option AgentAction)
  /-- The page as `ActionExecutor.execute` finds it. -/
  execEnv : ExecEnv
  /-- `network_monitor.get_recent_events(seconds=2)` at the post-fill
  verification instant. -/
  recentEvents : List NetworkEvent := []

/-- `AgentLoop._run_step` from the Reason phase on (phases 2–5), after
the CAPTCHA check has fallen through. -/
def runStepAfterCaptcha (cfg : Config) (v : ValidatorState) (step_num : Nat)
    (env : StepEnv) : AgentStep :=
  match env.llm with
  | .raised exc =>
    { step_number := step_num,
      reasoning := "Failed to generate action from LLM provider",
      error := some exc }
  | .ok none =>
    { step_number := step_num,
      reasoning := "Failed to generate valid action",
      error := some "LLM failed to generate valid action JSON" }
  | .ok (some action) =>
    let validated := validate_action cfg v action env.pageUrl
    if ¬validated.1 then
      { step_number := step_num,
        reasoning := "Action blocked by security policy: " ++
          pyOrElse validated.2 "None",
        action := some action,
        error := validated.2 }
    else if requires_human_confirmation cfg action then
      { step_number := step_num,
        reasoning := "Action requires human confirmation",
        action := some action,
        error := some "Sensitive action requires human confirmation" }
    else
      let r := ActionExecutor.execute env.execEnv action
      let result_summary :=
        if r.1 then "Success" else "Failed: " ++ pyOrElse r.2.1 "None"
      let result_summary :=
        if r.1 ∧ action.action = ActionType.FILL ∧
            cfg.network.verify_backend_success then
          let recent_posts := env.recentEvents.filter fun e => e.method = "POST"
          match recent_posts with
          | p :: _ => result_summary ++ " (Form submitted to " ++ p.url ++ ")"
          | [] => result_summary
        else result_summary
      { step_number := step_num,
        reasoning := "Executing " ++ action.action ++ " to progress towards goals",
        action := some action,
        result := some result_summary,
        error := r.2.1 }

/-- `AgentLoop._run_step` (which returns a step on every path). -/
def runStep (cfg : Config) (v : ValidatorState) (step_num : Nat)
    (env : StepEnv) : AgentStep :=
  match env.captcha with
  | some (success, herr) =>
    if cfg.agent.vision_enabled ∧ ¬success then
      { step_number := step_num,
        reasoning := "CAPTCHA detected that requires human intervention",
        error := some (pyOrElse herr "CAPTCHA requires human intervention") }
    else
      -- handled autonomously (re-observe) or vision disabled: fall
      -- through to reasoning, exactly as the source's missing `else`.
      runStepAfterCaptcha cfg v step_num env
  | none => runStepAfterCaptcha cfg v step_num env

/-- `step.action and step.action.action == ActionType.DONE`. -/
def isDoneStep (st : AgentStep) : Bool :=
  match st.action with
  | some a => a.action = ActionType.DONE
  | none => false

/-- One loop iteration's fate: `_run_step` ran to a step, the
`asyncio.wait_for` deadline fired, or the step raised. -/
inductive StepCall where
  | normal (env : StepEnv)
  | timedOut
  | excRaised

structure RunEnv where
  /-- The initial `page.goto(session.url)` did not raise. -/
  navOk : Bool := true
  stepAt : Nat → StepCall
  /-- `(time.time() - start_time) < self.total_timeout` when the while
  condition of iteration `i` is evaluated. -/
  timeOk : Nat → Bool := fun _ => true
  /-- `(time.time() - start_time) >= self.total_timeout` at the
  post-loop termination-reason check. -/
  finalTimeUp : Bool := false

/-- The `while` loop of `AgentLoop.run`.  Every continuing iteration
appends one step and the guard requires `steps_count < max_steps`, so
`max_steps + 1` fuel can never be exhausted; the fuel-0 branch is
unreachable from `AgentLoop.run`. -/
def runLoopAux (cfg : Config) (v : ValidatorState) (renv : RunEnv)
    (max_steps : Nat) : Nat → Nat → AgentSession → AgentSession
  | 0, _, session => session
  | fuel + 1, iter, session =>
    if session.is_active ∧ session.steps.length < max_steps ∧ renv.timeOk iter then
      match renv.stepAt iter with
      | .timedOut => { session with status := .failed }
      | .excRaised => { session with status := .failed }
      | .normal env =>
        let step := runStep cfg v (session.steps.length + 1) env
        let session' := { session with steps := session.steps ++ [step] }
        if isDoneStep step then
          { session' with status := .completed }
        else
          match step.error with
          | some e =>
            if pyIn "human intervention" (pyLower e) then
              { session' with status := .waiting_human }
            else
              { session' with status := .failed }
          | none => runLoopAux cfg v renv max_steps fuel (iter + 1) session'
    else session

/-- `AgentLoop.run`.  The outer `try/except` turns a failed initial
navigation into a `FAILED` session; after the loop, a still-active
session is failed when the step budget is exhausted or the total
timeout has passed. -/
def AgentLoop.run (cfg : Config) (v : ValidatorState) (renv : RunEnv)
    (max_steps : Nat) (session : AgentSession) : AgentSession :=
  if ¬renv.navOk then { session with status := .failed }
  else
    let s := runLoopAux cfg v renv max_steps (max_steps + 1) 0 session
    if s.is_active then
      if max_steps ≤ s.steps.length then { s with status := .failed }
      else if renv.finalTimeUp then { s with status := .failed }
      else s
    else s

/-! ### Derived notions used in theorem statements -/

/-- A value as `$`-anchored Python regexes see it: with a single
trailing newline, if present, removed. -/
def stripTrailingNewline (cs : List Char) : List Char :=
  if cs.getLast? = some '\n' then cs.dropLast else cs

/-- A page on which every handler call simply succeeds; used to build
concrete loop scenarios. -/
def execOkEnv : ExecEnv :=
  { click := .ok (true, none, none), fill := .ok (true, none, none),
    goto := .ok (true, none, none), press := .ok (true, none, none),
    select := .ok (true, none, none), wait := .ok (true, none, none),
    assert_url := .ok (true, none, none) }

/-! ## Generic helper lemmas -/

theorem isPrefixOf_append_self (l t : List Char) : l.isPrefixOf (l ++ t) = true := by
  induction l with
  | nil => simp [List.isPrefixOf]
  | cons a as ih => simp [List.isPrefixOf, ih]

theorem firstSuccess_of_all_false (f : String → Bool) (l : List String)
    (h : ∀ c ∈ l, f c = false) : firstSuccess f l = none := by
  induction l with
  | nil => rfl
  | cons c rest ih =>
    have hc := h c (List.mem_cons_self ..)
    simp only [firstSuccess, hc]
    exact ih fun x hx => h x (List.mem_cons_of_mem _ hx)

theorem firstSuccess_of_first (f : String → Bool) (l₁ : List String)
    (alt : String) (l₂ : List String) (h₁ : ∀ c ∈ l₁, f c = false)
    (h₂ : f alt = true) : firstSuccess f (l₁ ++ alt :: l₂) = some alt := by
  induction l₁ with
  | nil => simp [firstSuccess, h₂]
  | cons c rest ih =>
    have hc := h₁ c (List.mem_cons_self ..)
    simp only [List.cons_append, firstSuccess, hc]
    exact ih fun x hx => h₁ x (List.mem_cons_of_mem _ hx)

theorem lastIdxWhere_spec {α : Type} (p : α → Bool) (l : List α) (i : Nat)
    (h : lastIdxWhere p l = some i) :
    ∃ x, l[i]? = some x ∧ p x = true := by
  induction l generalizing i with
  | nil => simp [lastIdxWhere] at h
  | cons a as ih =>
    unfold lastIdxWhere at h
    cases hrec : lastIdxWhere p as with
    | some j =>
      rw [hrec] at h
      cases h
      obtain ⟨x, hx, hpx⟩ := ih j hrec
      exact ⟨x, by simpa using hx, hpx⟩
    | none =>
      rw [hrec] at h
      by_cases hpa : p a = true
      · rw [if_pos hpa] at h
        cases h
        exact ⟨a, by simp, hpa⟩
      · rw [if_neg hpa] at h
        cases h

theorem listModify_length {α : Type} (f : α → α) (i : Nat) (l : List α) :
    (listModify f i l).length = l.length := by
  induction l generalizing i with
  | nil => simp [listModify]
  | cons a as ih =>
    cases i with
    | zero => simp [listModify]
    | succ n => simpa [listModify] using ih n

theorem listModify_getElem?_ne {α : Type} (f : α → α) (i j : Nat) (l : List α)
    (h : i ≠ j) : (listModify f i l)[j]? = l[j]? := by
  induction l generalizing i j with
  | nil => simp [listModify]
  | cons a as ih =>
    cases i with
    | zero =>
      cases j with
      | zero => exact absurd rfl h
      | succ m => simp [listModify]
    | succ n =>
      cases j with
      | zero => simp [listModify]
      | succ m => simpa [listModify] using ih n m (fun hnm => h (by rw [hnm]))

/-! ## Validator lemmas -/

/-- The five messages a confirmation-worthy action can be denied
with. -/
def denyMessages : List (Option String) :=
  [some "File dialog actions are blocked",
   some "Payment actions require manual confirmation",
   some "Deletion actions require manual confirmation",
   some "Credit card input requires manual confirmation",
   some "SSN input requires manual confirmation"]

/-- Core fact behind several claims: whenever
`requires_human_confirmation` fires, `validate_action` already denies
the action, with one of the fixed denial messages. -/
theorem requires_confirmation_denied (cfg : Config) (v : ValidatorState)
    (a : AgentAction) (url : String)
    (h : requires_human_confirmation cfg a = true) :
    (validate_action cfg v a url).1 = false ∧
    (validate_action cfg v a url).2 ∈ denyMessages := by
  unfold requires_human_confirmation at h
  by_cases hconf : cfg.security.confirm_sensitive_actions = true
  case neg =>
    rw [if_pos] at h
    · exact absurd h (by simp)
    · simpa using hconf
  rw [if_neg (by simp [hconf])] at h
  by_cases hclick : a.action = ActionType.CLICK
  · rw [if_pos hclick] at h
    have hgoto : ¬(a.action = ActionType.GOTO) := by
      rw [hclick]; decide
    unfold validate_action
    rw [if_neg hgoto, if_pos hclick]
    unfold validate_click
    rw [anyPattern, List.any_append, Bool.or_eq_true] at h
    by_cases hfile : (cfg.security.block_file_dialogs = true) ∧
        anyPattern FILE_PATTERNS (pyLower a.selector) = true
    · rw [if_pos hfile]
      exact ⟨rfl, by simp [denyMessages]⟩
    · rw [if_neg hfile]
      rcases h with hp | hd
      · rw [if_pos ⟨hconf, hp⟩]
        exact ⟨rfl, by simp [denyMessages]⟩
      · by_cases hpay : (cfg.security.confirm_sensitive_actions = true) ∧
            anyPattern PAYMENT_PATTERNS (pyLower a.selector) = true
        · rw [if_pos hpay]
          exact ⟨rfl, by simp [denyMessages]⟩
        · rw [if_neg hpay, if_pos ⟨hconf, hd⟩]
          exact ⟨rfl, by simp [denyMessages]⟩
  · rw [if_neg hclick] at h
    by_cases hfill : a.action = ActionType.FILL
    · rw [if_pos hfill] at h
      have hgoto : ¬(a.action = ActionType.GOTO) := by
        rw [hfill]; decide
      unfold validate_action
      rw [if_neg hgoto, if_neg hclick, if_pos hfill]
      unfold validate_fill
      rw [Bool.or_eq_true] at h
      by_cases hcc : reMatchCard a.value.data = true
      · rw [if_pos ⟨hcc, hconf⟩]
        exact ⟨rfl, by simp [denyMessages]⟩
      · rw [if_neg (fun hand => hcc hand.1)]
        rcases h with hcc' | hssn
        · exact absurd hcc' hcc
        · rw [if_pos ⟨hssn, hconf⟩]
          exact ⟨rfl, by simp [denyMessages]⟩
    · rw [if_neg hfill] at h
      exact absurd h (by simp)

/-- The tag of a confirmation-worthy action is `click` or `fill`. -/
theorem requires_confirmation_tag (cfg : Config) (a : AgentAction)
    (h : requires_human_confirmation cfg a = true) :
    a.action = ActionType.CLICK ∨ a.action = ActionType.FILL := by
  unfold requires_human_confirmation at h
  by_cases hclick : a.action = ActionType.CLICK
  · exact Or.inl hclick
  by_cases hfill : a.action = ActionType.FILL
  · exact Or.inr hfill
  by_cases hconf : cfg.security.confirm_sensitive_actions = true
  · rw [if_neg (by simp [hconf]), if_neg hclick, if_neg hfill] at h
    exact absurd h (by simp)
  · rw [if_pos (by simpa using hconf)] at h
    exact absurd h (by simp)

/-- None of the five denial messages contains the human-intervention
marker the loop scans for. -/
theorem denyMessages_no_marker :
    ∀ msg ∈ denyMessages, ∀ e, msg = some e →
      pyIn "human intervention" (pyLower e) = false := by
  decide

/-! ## Claims -/

/-- **C2.**  For every action and current URL, if
`requires_human_confirmation(action)` returns true then
`validate_action(action, current_url)` returns a denial
(`is_valid = false`): the validator's deny paths cover every condition
under which the confirmation query fires. -/
theorem C2_confirmation_implies_deny (cfg : Config) (v : ValidatorState)
    (a : AgentAction) (current_url : String)
    (h : requires_human_confirmation cfg a = true) :
    (validate_action cfg v a current_url).1 = false :=
  (requires_confirmation_denied cfg v a current_url h).1

/-- **C2** witness: a click on a `delete`-selector requires
confirmation and is denied. -/
theorem C2_confirmation_implies_deny_witness :
    requires_human_confirmation {} { action := "click", selector := "button.delete" } = true ∧
    (validate_action {} {} { action := "click", selector := "button.delete" }
      "https://app.example.com").1 = false :=
  ⟨by decide,
   C2_confirmation_implies_deny {} {} { action := "click", selector := "button.delete" }
     "https://app.example.com" (by decide)⟩

/-- **C3.**  A `fill` whose value is the 16-digit string
`"4111111111111111"` is denied (with the credit-card message) when the
sensitive-action-confirmation policy is active, and allowed when it is
inactive. -/
theorem C3_card_fill_denied_iff_policy (cfg : Config) (v : ValidatorState)
    (current_url : String) (a : AgentAction)
    (htag : a.action = ActionType.FILL)
    (hval : a.value = "4111111111111111") :
    (cfg.security.confirm_sensitive_actions = true →
      validate_action cfg v a current_url =
        (false, some "Credit card input requires manual confirmation")) ∧
    (cfg.security.confirm_sensitive_actions = false →
      validate_action cfg v a current_url = (true, none)) := by
  constructor
  · intro hconf
    unfold validate_action
    rw [if_neg (by rw [htag]; decide), if_neg (by rw [htag]; decide),
        if_pos htag]
    unfold validate_fill
    rw [if_pos ⟨by rw [hval]; decide, hconf⟩]
  · intro hconf
    unfold validate_action
    rw [if_neg (by rw [htag]; decide), if_neg (by rw [htag]; decide),
        if_pos htag]
    unfold validate_fill
    rw [if_neg (fun hand => by rw [hconf] at hand; exact absurd hand.2 (by decide)),
        if_neg (fun hand => by rw [hconf] at hand; exact absurd hand.2 (by decide))]

/-- **C3** witness: both policy settings evaluated on a concrete fill
action. -/
theorem C3_card_fill_denied_iff_policy_witness :
    validate_action {} {}
      { action := "fill", selector := "input#cc", value := "4111111111111111" }
      "https://shop.example.com/pay" =
      (false, some "Credit card input requires manual confirmation") ∧
    validate_action { security := { confirm_sensitive_actions := false } } {}
      { action := "fill", selector := "input#cc", value := "4111111111111111" }
      "https://shop.example.com/pay" = (true, none) :=
  ⟨(C3_card_fill_denied_iff_policy {} {} "https://shop.example.com/pay"
      { action := "fill", selector := "input#cc", value := "4111111111111111" }
      rfl rfl).1 rfl,
   (C3_card_fill_denied_iff_policy { security := { confirm_sensitive_actions := false } }
      {} "https://shop.example.com/pay"
      { action := "fill", selector := "input#cc", value := "4111111111111111" }
      rfl rfl).2 rfl⟩

/-- A selector containing `delete` makes the deletion-pattern scan
fire (lowercasing preserves the literal, already-lowercase
substring). -/
theorem anyPattern_delete_of_infix (s : String)
    (h : "delete".data <:+: s.data) :
    anyPattern DELETION_PATTERNS (pyLower s) = true := by
  obtain ⟨pre, post, hpp⟩ := h
  have hdata : (pyLower s).data =
      pre.map lowerChar ++ ("delete".data ++ post.map lowerChar) := by
    show s.data.map lowerChar = _
    rw [← hpp, List.map_append, List.map_append]
    rw [show "delete".data.map lowerChar = "delete".data from by decide,
        List.append_assoc]
  unfold anyPattern
  rw [List.any_eq_true]
  refine ⟨["delete".data], by simp [DELETION_PATTERNS], ?_⟩
  unfold reSearch
  rw [List.any_eq_true]
  refine ⟨(pre.map lowerChar).length, ?_, ?_⟩
  · rw [List.mem_range, hdata]
    simp only [List.length_append]
    omega
  · rw [hdata, List.drop_left]
    simp [matchHere, matchGap, isPrefixOf_append_self]

/-- **C4.**  A click whose selector contains the substring `delete` is
denied, with a non-empty reason, whenever the
confirm-sensitive-actions policy (on by default) is active. -/
theorem C4_delete_click_denied (cfg : Config) (v : ValidatorState)
    (current_url : String) (a : AgentAction)
    (hconf : cfg.security.confirm_sensitive_actions = true)
    (htag : a.action = ActionType.CLICK)
    (hsub : "delete".data <:+: a.selector.data) :
    (validate_action cfg v a current_url).1 = false ∧
    ∃ m, (validate_action cfg v a current_url).2 = some m ∧ m ≠ "" := by
  have hdel := anyPattern_delete_of_infix a.selector hsub
  unfold validate_action
  rw [if_neg (by rw [htag]; decide), if_pos htag]
  unfold validate_click
  by_cases hfile : (cfg.security.block_file_dialogs = true) ∧
      anyPattern FILE_PATTERNS (pyLower a.selector) = true
  · rw [if_pos hfile]
    exact ⟨rfl, _, rfl, by decide⟩
  · rw [if_neg hfile]
    by_cases hpay : (cfg.security.confirm_sensitive_actions = true) ∧
        anyPattern PAYMENT_PATTERNS (pyLower a.selector) = true
    · rw [if_pos hpay]
      exact ⟨rfl, _, rfl, by decide⟩
    · rw [if_neg hpay, if_pos ⟨hconf, hdel⟩]
      exact ⟨rfl, _, rfl, by decide⟩

/-- **C4** witness: the default policy denies a concrete
`delete`-bearing selector. -/
theorem C4_delete_click_denied_witness :
    ("delete".data <:+:
      (AgentAction.selector { action := "click", selector := "button#delete-row" }).data) ∧
    ((validate_action {} {} { action := "click", selector := "button#delete-row" }
        "https://app.example.com").1 = false ∧
      ∃ m, (validate_action {} {} { action := "click", selector := "button#delete-row" }
        "https://app.example.com").2 = some m ∧ m ≠ "") :=
  ⟨by decide,
   C4_delete_click_denied {} {} "https://app.example.com"
     { action := "click", selector := "button#delete-row" } rfl rfl (by decide)⟩

/-- **C5.**  `ActionExecutor.execute` always produces a
`(success, error, resultData)` triple: an exception leaking out of the
dispatched handler is captured and returned as
`(false, its message, none)`, and a tag outside the eight known
variants yields `(false, descriptive error naming the tag, none)`. -/
theorem C5_execute_captures_errors (env : ExecEnv) (a : AgentAction) :
    (∀ e, ActionExecutor.dispatch env a = .raised e →
      ActionExecutor.execute env a = (false, some e, none)) ∧
    (a.action ∉ [ActionType.CLICK, ActionType.FILL, ActionType.GOTO,
        ActionType.PRESS, ActionType.SELECT, ActionType.WAIT_FOR_SELECTOR,
        ActionType.ASSERT_URL_INCLUDES, ActionType.DONE] →
      ActionExecutor.execute env a =
        (false, some ("Unknown action type: " ++ a.action), none)) := by
  constructor
  · intro e he
    unfold ActionExecutor.execute
    rw [he]
  · intro hmem
    simp only [List.mem_cons, List.not_mem_nil, or_false, not_or] at hmem
    obtain ⟨h1, h2, h3, h4, h5, h6, h7, h8⟩ := hmem
    unfold ActionExecutor.execute ActionExecutor.dispatch
    rw [if_neg h1, if_neg h2, if_neg h3, if_neg h4, if_neg h5, if_neg h6,
        if_neg h7, if_neg h8]

/-- **C5** witness: a handler that raises, and an unknown tag, on
concrete inputs. -/
theorem C5_execute_captures_errors_witness :
    ActionExecutor.dispatch { execOkEnv with click := .raised "boom" }
      { action := "click", selector := "#b" } = .raised "boom" ∧
    ActionExecutor.execute { execOkEnv with click := .raised "boom" }
      { action := "click", selector := "#b" } = (false, some "boom", none) ∧
    ActionExecutor.execute execOkEnv { action := "hover" } =
      (false, some ("Unknown action type: " ++ "hover"), none) :=
  ⟨by decide,
   (C5_execute_captures_errors { execOkEnv with click := .raised "boom" }
      { action := "click", selector := "#b" }).1 "boom" (by decide),
   (C5_execute_captures_errors execOkEnv { action := "hover" }).2 (by decide)⟩

/-- **C9.**  When the primary selector of a click never resolves
(`PlaywrightTimeout`), healing tries the candidate list — the pure
function `heal_selector`, so the same input always yields the same
candidates — truncated to at most 3 entries, stops at the first
candidate that succeeds, and when every candidate fails returns a
failure whose message names the original selector. -/
theorem C9_click_healing (env : ClickEnv) (selector : String)
    (hto : env.primary = .timeoutErr) :
    ((heal_selector selector "Element not found").take 3).length ≤ 3 ∧
    (∀ l₁ alt l₂,
      (heal_selector selector "Element not found").take 3 = l₁ ++ alt :: l₂ →
      (∀ c ∈ l₁, env.tryAlt c = false) → env.tryAlt alt = true →
      execute_click env selector =
        (true, none, some [("clicked", alt), ("healed", "True")])) ∧
    ((∀ c ∈ (heal_selector selector "Element not found").take 3,
        env.tryAlt c = false) →
      execute_click env selector =
        (false, some ("Element not found or not clickable: " ++ selector), none) ∧
      selector.data <:+:
        ("Element not found or not clickable: " ++ selector).data) := by
  refine ⟨?_, ?_, ?_⟩
  · simp [List.length_take]
  · intro l₁ alt l₂ hsplit hfail hsucc
    unfold execute_click
    rw [hto, hsplit, firstSuccess_of_first env.tryAlt l₁ alt l₂ hfail hsucc]
  · intro hall
    constructor
    · unfold execute_click
      rw [hto, firstSuccess_of_all_false env.tryAlt _ hall]
    · exact ⟨"Element not found or not clickable: ".data, [], by simp⟩

/-- **C9** witness: with every candidate failing the click reports the
original selector; with the second candidate clickable the first
success wins. -/
theorem C9_click_healing_witness :
    (execute_click { primary := .timeoutErr } "text=Submit" =
      (false, some ("Element not found or not clickable: " ++ "text=Submit"), none) ∧
     "text=Submit".data <:+:
       ("Element not found or not clickable: " ++ "text=Submit").data) ∧
    execute_click
      { primary := .timeoutErr,
        tryAlt := fun s => s = ":has-text(\"Submit\")" } "text=Submit" =
      (true, none, some [("clicked", ":has-text(\"Submit\")"), ("healed", "True")]) :=
  ⟨(C9_click_healing { primary := .timeoutErr } "text=Submit" rfl).2.2
     (by decide),
   (C9_click_healing
      { primary := .timeoutErr,
        tryAlt := fun s => s = ":has-text(\"Submit\")" } "text=Submit" rfl).2.1
     ["text=/Submit/i"] ":has-text(\"Submit\")" ["role=button[name=\"Submit\"]"]
     (by decide) (by decide) (by decide)⟩

/-- Unfolding `runLoopAux` when the loop stops (guard false). -/
theorem runLoopAux_stop (cfg : Config) (v : ValidatorState) (renv : RunEnv)
    (ms fuel iter : Nat) (session : AgentSession)
    (hguard : ¬(session.is_active = true ∧ session.steps.length < ms ∧
      renv.timeOk iter = true)) :
    runLoopAux cfg v renv ms (fuel + 1) iter session = session := by
  unfold runLoopAux
  rw [if_neg hguard]

/-- Unfolding `runLoopAux` when the step's action is `done`. -/
theorem runLoopAux_done (cfg : Config) (v : ValidatorState) (renv : RunEnv)
    (ms fuel iter : Nat) (session : AgentSession) (env : StepEnv)
    (hguard : session.is_active = true ∧ session.steps.length < ms ∧
      renv.timeOk iter = true)
    (hstep : renv.stepAt iter = .normal env)
    (hdone : isDoneStep (runStep cfg v (session.steps.length + 1) env) = true) :
    runLoopAux cfg v renv ms (fuel + 1) iter session =
      { session with
        steps := session.steps ++ [runStep cfg v (session.steps.length + 1) env],
        status := .completed } := by
  unfold runLoopAux
  rw [if_pos hguard, hstep]
  simp only [hdone, if_true]

/-- Unfolding `runLoopAux` when the step carries an error. -/
theorem runLoopAux_error (cfg : Config) (v : ValidatorState) (renv : RunEnv)
    (ms fuel iter : Nat) (session : AgentSession) (env : StepEnv) (e : String)
    (hguard : session.is_active = true ∧ session.steps.length < ms ∧
      renv.timeOk iter = true)
    (hstep : renv.stepAt iter = .normal env)
    (hnotdone : isDoneStep (runStep cfg v (session.steps.length + 1) env) = false)
    (herr : (runStep cfg v (session.steps.length + 1) env).error = some e) :
    runLoopAux cfg v renv ms (fuel + 1) iter session =
      (if pyIn "human intervention" (pyLower e) = true then
        { session with
          steps := session.steps ++ [runStep cfg v (session.steps.length + 1) env],
          status := .waiting_human }
      else
        { session with
          steps := session.steps ++ [runStep cfg v (session.steps.length + 1) env],
          status := .failed }) := by
  unfold runLoopAux
  rw [if_pos hguard, hstep]
  simp only [hnotdone, Bool.false_eq_true, if_false, herr]

/-- Unfolding `runLoopAux` when the step succeeds and the loop
continues. -/
theorem runLoopAux_continue (cfg : Config) (v : ValidatorState) (renv : RunEnv)
    (ms fuel iter : Nat) (session : AgentSession) (env : StepEnv)
    (hguard : session.is_active = true ∧ session.steps.length < ms ∧
      renv.timeOk iter = true)
    (hstep : renv.stepAt iter = .normal env)
    (hnotdone : isDoneStep (runStep cfg v (session.steps.length + 1) env) = false)
    (herr : (runStep cfg v (session.steps.length + 1) env).error = none) :
    runLoopAux cfg v renv ms (fuel + 1) iter session =
      runLoopAux cfg v renv ms fuel (iter + 1)
        { session with
          steps := session.steps ++ [runStep cfg v (session.steps.length + 1) env] } := by
  conv_lhs => unfold runLoopAux
  rw [if_pos hguard, hstep]
  simp only [hnotdone, Bool.false_eq_true, if_false, herr]

/-- Unfolding `runLoopAux` when fuel is exhausted (unreachable from
`AgentLoop.run`, which supplies `max_steps + 1`). -/
theorem runLoopAux_zero (cfg : Config) (v : ValidatorState) (renv : RunEnv)
    (ms iter : Nat) (session : AgentSession) :
    runLoopAux cfg v renv ms 0 iter session = session := by
  unfold runLoopAux
  exact rfl

/-- Unfolding `runLoopAux` when the per-step deadline fires. -/
theorem runLoopAux_timedOut (cfg : Config) (v : ValidatorState) (renv : RunEnv)
    (ms fuel iter : Nat) (session : AgentSession)
    (hguard : session.is_active = true ∧ session.steps.length < ms ∧
      renv.timeOk iter = true)
    (hstep : renv.stepAt iter = .timedOut) :
    runLoopAux cfg v renv ms (fuel + 1) iter session =
      { session with status := .failed } := by
  unfold runLoopAux
  rw [if_pos hguard, hstep]

/-- Unfolding `runLoopAux` when the step raises. -/
theorem runLoopAux_excRaised (cfg : Config) (v : ValidatorState) (renv : RunEnv)
    (ms fuel iter : Nat) (session : AgentSession)
    (hguard : session.is_active = true ∧ session.steps.length < ms ∧
      renv.timeOk iter = true)
    (hstep : renv.stepAt iter = .excRaised) :
    runLoopAux cfg v renv ms (fuel + 1) iter session =
      { session with status := .failed } := by
  unfold runLoopAux
  rw [if_pos hguard, hstep]

/-- Loop invariant behind C6: starting from a session with no `done`
step, any `done` step in the loop's result is its last step and the
result's status is `COMPLETED`. -/
theorem runLoopAux_done_invariant (cfg : Config) (v : ValidatorState)
    (renv : RunEnv) (ms : Nat) :
    ∀ fuel iter (session : AgentSession),
    (∀ st ∈ session.steps, isDoneStep st = false) →
    ∀ st ∈ (runLoopAux cfg v renv ms fuel iter session).steps,
      isDoneStep st = true →
      (runLoopAux cfg v renv ms fuel iter session).steps.getLast? = some st ∧
      (runLoopAux cfg v renv ms fuel iter session).status = .completed := by
  intro fuel
  induction fuel with
  | zero =>
    intro iter session h st hst hdone
    rw [runLoopAux_zero] at hst ⊢
    exact absurd (h st hst) (by rw [hdone]; decide)
  | succ fuel ih =>
    intro iter session h st hst hdone
    by_cases hguard : session.is_active = true ∧ session.steps.length < ms ∧
        renv.timeOk iter = true
    case neg =>
      rw [runLoopAux_stop cfg v renv ms fuel iter session hguard] at hst ⊢
      exact absurd (h st hst) (by rw [hdone]; decide)
    cases hcall : renv.stepAt iter with
    | timedOut =>
      rw [runLoopAux_timedOut cfg v renv ms fuel iter session hguard hcall] at hst ⊢
      exact absurd (h st hst) (by rw [hdone]; decide)
    | excRaised =>
      rw [runLoopAux_excRaised cfg v renv ms fuel iter session hguard hcall] at hst ⊢
      exact absurd (h st hst) (by rw [hdone]; decide)
    | normal env =>
      by_cases hd : isDoneStep (runStep cfg v (session.steps.length + 1) env) = true
      · rw [runLoopAux_done cfg v renv ms fuel iter session env hguard hcall hd] at hst ⊢
        simp only at hst
        rcases List.mem_append.mp hst with hold | hnew
        · exact absurd (h st hold) (by rw [hdone]; decide)
        · have hst_eq : st = runStep cfg v (session.steps.length + 1) env := by
            simpa using hnew
          subst hst_eq
          exact ⟨List.getLast?_concat _, rfl⟩
      · have hd' : isDoneStep (runStep cfg v (session.steps.length + 1) env) = false := by
          simpa using hd
        cases herr : (runStep cfg v (session.steps.length + 1) env).error with
        | some e =>
          rw [runLoopAux_error cfg v renv ms fuel iter session env e hguard hcall hd' herr] at hst ⊢
          by_cases hmark : pyIn "human intervention" (pyLower e) = true
          · rw [if_pos hmark] at hst ⊢
            simp only at hst
            rcases List.mem_append.mp hst with hold | hnew
            · exact absurd (h st hold) (by rw [hdone]; decide)
            · have hst_eq : st = runStep cfg v (session.steps.length + 1) env := by
                simpa using hnew
              rw [hst_eq] at hdone
              exact absurd hdone (by rw [hd']; decide)
          · rw [if_neg hmark] at hst ⊢
            simp only at hst
            rcases List.mem_append.mp hst with hold | hnew
            · exact absurd (h st hold) (by rw [hdone]; decide)
            · have hst_eq : st = runStep cfg v (session.steps.length + 1) env := by
                simpa using hnew
              rw [hst_eq] at hdone
              exact absurd hdone (by rw [hd']; decide)
        | none =>
          rw [runLoopAux_continue cfg v renv ms fuel iter session env hguard hcall hd' herr] at hst ⊢
          refine ih (iter + 1)
            { session with
              steps := session.steps ++ [runStep cfg v (session.steps.length + 1) env] }
            ?_ st hst hdone
          intro st' hst'
          simp only at hst'
          rcases List.mem_append.mp hst' with hold | hnew
          · exact h st' hold
          · have : st' = runStep cfg v (session.steps.length + 1) env := by
              simpa using hnew
            rw [this]
            exact hd'

/-- With no CAPTCHA and an action the validator denies, `_run_step`
returns the policy-block step: the step carries the action and the
validator's error, and the confirmation branch is never reached. -/
theorem runStep_blocked (cfg : Config) (v : ValidatorState) (n : Nat)
    (env : StepEnv) (a : AgentAction)
    (hcap : env.captcha = none)
    (hllm : env.llm = .ok (some a))
    (hdeny : (validate_action cfg v a env.pageUrl).1 = false) :
    runStep cfg v n env =
      { step_number := n,
        reasoning := "Action blocked by security policy: " ++
          pyOrElse (validate_action cfg v a env.pageUrl).2 "None",
        action := some a,
        error := (validate_action cfg v a env.pageUrl).2 } := by
  unfold runStep
  rw [hcap]
  unfold runStepAfterCaptcha
  rw [hllm]
  simp only [hdeny, Bool.false_eq_true, not_false_eq_true, if_true]

/-- **C1** counterexample: a concrete loop run whose step proposes a
click that `requires_human_confirmation` flags, yet the resulting
session status is `FAILED`, not `WAITING_HUMAN` — the validator denies
the action first and its message lacks the human-intervention
marker. -/
theorem C1_counterexample :
    requires_human_confirmation {}
      { action := "click", selector := "button.delete" } = true ∧
    (AgentLoop.run {} {}
      { stepAt := fun _ => .normal
          { pageUrl := "https://app.example.com",
            llm := .ok (some { action := "click", selector := "button.delete" }),
            execEnv := execOkEnv } }
      30 { url := "https://app.example.com" }).status = .failed ∧
    (AgentLoop.run {} {}
      { stepAt := fun _ => .normal
          { pageUrl := "https://app.example.com",
            llm := .ok (some { action := "click", selector := "button.delete" }),
            execEnv := execOkEnv } }
      30 { url := "https://app.example.com" }).status ≠ .waiting_human := by
  refine ⟨by decide, ?_, ?_⟩ <;> decide

/-- **C1** (amended).  A step whose proposed action requires human
confirmation never reaches the loop's confirmation branch: the
validator already denies it, the step records the validator's error,
and — since no denial message contains the `human intervention`
marker — the loop marks the session `FAILED`, not `WAITING_HUMAN`. -/
theorem C1_confirmation_marks_failed (cfg : Config) (v : ValidatorState)
    (renv : RunEnv) (max_steps : Nat) (session : AgentSession)
    (env : StepEnv) (a : AgentAction)
    (hstatus : session.status = .running) (hsteps : session.steps = [])
    (hms : 0 < max_steps) (hnav : renv.navOk = true)
    (hstep0 : renv.stepAt 0 = .normal env) (htime0 : renv.timeOk 0 = true)
    (hcap : env.captcha = none) (hllm : env.llm = .ok (some a))
    (hreq : requires_human_confirmation cfg a = true) :
    (AgentLoop.run cfg v renv max_steps session).status = .failed ∧
    (AgentLoop.run cfg v renv max_steps session).steps =
      [runStep cfg v 1 env] ∧
    (runStep cfg v 1 env).error = (validate_action cfg v a env.pageUrl).2 := by
  obtain ⟨url', goals', status', steps'⟩ := session
  simp only at hstatus hsteps
  subst hstatus
  subst hsteps
  have hdeny := requires_confirmation_denied cfg v a env.pageUrl hreq
  have hstep := runStep_blocked cfg v 1 env a hcap hllm hdeny.1
  have hmsg : ∃ m, (validate_action cfg v a env.pageUrl).2 = some m ∧
      pyIn "human intervention" (pyLower m) = false := by
    have h2 := hdeny.2
    simp only [denyMessages, List.mem_cons, List.not_mem_nil, or_false] at h2
    rcases h2 with h | h | h | h | h <;> exact ⟨_, h, by decide⟩
  obtain ⟨m, hm, hmark⟩ := hmsg
  have hnotdone : isDoneStep (runStep cfg v 1 env) = false := by
    rw [hstep]
    rcases requires_confirmation_tag cfg a hreq with h | h <;>
      simp [isDoneStep, h, ActionType.CLICK, ActionType.FILL, ActionType.DONE]
  have herr : (runStep cfg v 1 env).error = some m := by
    rw [hstep]
    exact hm
  have hloop := runLoopAux_error cfg v renv max_steps max_steps 0
    { url := url', goals := goals', status := .running, steps := [] } env m
    ⟨by simp [AgentSession.is_active], by simpa using hms, htime0⟩
    hstep0 hnotdone herr
  rw [hmark] at hloop
  simp only [Bool.false_eq_true, if_false, List.nil_append] at hloop
  have hrun : AgentLoop.run cfg v renv max_steps
      { url := url', goals := goals', status := .running, steps := [] } =
      { url := url', goals := goals', status := .failed,
        steps := [runStep cfg v 1 env] } := by
    unfold AgentLoop.run
    rw [if_neg (fun hc => hc hnav)]
    simp only [hloop, AgentSession.is_active]
    simp
  rw [hrun, hstep]
  exact ⟨rfl, rfl, rfl⟩

/-- **C1** (amended) witness: the concrete delete-click scenario run
through the amended theorem. -/
theorem C1_confirmation_marks_failed_witness :
    (AgentLoop.run {} {}
      { stepAt := fun _ => .normal
          { pageUrl := "https://app.example.com",
            llm := .ok (some { action := "click", selector := "button.delete" }),
            execEnv := execOkEnv } }
      30 { url := "https://app.example.com" }).status = .failed ∧
    (AgentLoop.run {} {}
      { stepAt := fun _ => .normal
          { pageUrl := "https://app.example.com",
            llm := .ok (some { action := "click", selector := "button.delete" }),
            execEnv := execOkEnv } }
      30 { url := "https://app.example.com" }).steps =
      [runStep {} {} 1
        { pageUrl := "https://app.example.com",
          llm := .ok (some { action := "click", selector := "button.delete" }),
          execEnv := execOkEnv }] ∧
    (runStep {} {} 1
      { pageUrl := "https://app.example.com",
        llm := .ok (some { action := "click", selector := "button.delete" }),
        execEnv := execOkEnv }).error =
      (validate_action {} {} { action := "click", selector := "button.delete" }
        "https://app.example.com").2 :=
  C1_confirmation_marks_failed {} {}
    { stepAt := fun _ => .normal
        { pageUrl := "https://app.example.com",
          llm := .ok (some { action := "click", selector := "button.delete" }),
          execEnv := execOkEnv } }
    30 { url := "https://app.example.com" }
    { pageUrl := "https://app.example.com",
      llm := .ok (some { action := "click", selector := "button.delete" }),
      execEnv := execOkEnv }
    { action := "click", selector := "button.delete" }
    rfl rfl (by decide) rfl rfl rfl rfl rfl (by decide)

/-- **C6.**  For every session returned by `AgentLoop.run` (started,
as the API starts it, without any recorded `done` step), if some
recorded step's action is `done` then that step is the last element of
the steps list and the final status is `COMPLETED`: after a `done`
step is appended, no further step is executed or appended. -/
theorem C6_done_step_is_last (cfg : Config) (v : ValidatorState)
    (renv : RunEnv) (max_steps : Nat) (session : AgentSession)
    (h : ∀ st ∈ session.steps, isDoneStep st = false) :
    ∀ st ∈ (AgentLoop.run cfg v renv max_steps session).steps,
      isDoneStep st = true →
      (AgentLoop.run cfg v renv max_steps session).steps.getLast? = some st ∧
      (AgentLoop.run cfg v renv max_steps session).status = .completed := by
  intro st hst hdone
  have hinv := runLoopAux_done_invariant cfg v renv max_steps
    (max_steps + 1) 0 session h
  unfold AgentLoop.run at hst ⊢
  by_cases hnav : renv.navOk = true
  case neg =>
    rw [if_pos (by simpa using hnav)] at hst ⊢
    exact absurd (h st hst) (by rw [hdone]; decide)
  rw [if_neg (fun hc => hc hnav)] at hst ⊢
  by_cases hact :
      (runLoopAux cfg v renv max_steps (max_steps + 1) 0 session).is_active = true
  · -- every override branch keeps the steps, and a done step forces
    -- status COMPLETED, contradicting activity
    exfalso
    rw [if_pos hact] at hst
    have hmem : st ∈ (runLoopAux cfg v renv max_steps (max_steps + 1) 0 session).steps := by
      rcases le_or_lt max_steps
          (runLoopAux cfg v renv max_steps (max_steps + 1) 0 session).steps.length with hle | hlt
      · rwa [if_pos hle] at hst
      · rw [if_neg (Nat.not_le.mpr hlt)] at hst
        by_cases hft : renv.finalTimeUp = true
        · rwa [if_pos hft] at hst
        · rwa [if_neg hft] at hst
    have hcomp := (hinv st hmem hdone).2
    rw [AgentSession.is_active, hcomp] at hact
    exact absurd hact (by decide)
  · rw [if_neg hact] at hst ⊢
    exact hinv st hst hdone

/-- **C6** witness: a concrete run whose oracle proposes `done`
immediately; the session completes with that single step last. -/
theorem C6_done_step_is_last_witness :
    (∀ st ∈ ([] : List AgentStep), isDoneStep st = false) ∧
    (∀ st ∈ (AgentLoop.run {} {}
        { stepAt := fun _ => .normal
            { pageUrl := "https://app.example.com",
              llm := .ok (some { action := "done", summary := "goal reached" }),
              execEnv := execOkEnv } }
        30 { url := "https://app.example.com" }).steps,
      isDoneStep st = true →
      (AgentLoop.run {} {}
        { stepAt := fun _ => .normal
            { pageUrl := "https://app.example.com",
              llm := .ok (some { action := "done", summary := "goal reached" }),
              execEnv := execOkEnv } }
        30 { url := "https://app.example.com" }).steps.getLast? = some st ∧
      (AgentLoop.run {} {}
        { stepAt := fun _ => .normal
            { pageUrl := "https://app.example.com",
              llm := .ok (some { action := "done", summary := "goal reached" }),
              execEnv := execOkEnv } }
        30 { url := "https://app.example.com" }).status = .completed) :=
  ⟨by simp,
   C6_done_step_is_last {} {}
     { stepAt := fun _ => .normal
         { pageUrl := "https://app.example.com",
           llm := .ok (some { action := "done", summary := "goal reached" }),
           execEnv := execOkEnv } }
     30 { url := "https://app.example.com" } (by simp)⟩

/-- **C7.**  A request-started event for `(POST, /api/login)` matched
by a response with status 200: `get_recent_events` queried within the
window returns exactly one event for that request, with
`is_success = true` and a recorded latency ≥ 0. -/
theorem C7_network_correlation (t0 t1 t2 secs : ℚ)
    (h01 : t0 ≤ t1) (hwin : t2 - secs ≤ t0) :
    ∃ e, get_recent_events t2 secs true false
      (on_response {} t1
        { request := { method := "POST", url := "https://app.example.com/api/login",
                       resource_type := some "xhr" },
          status := 200 }
        (on_request {} t0
          { method := "POST", url := "https://app.example.com/api/login",
            resource_type := some "xhr" }
          (NetworkMonitor.init {}))) = [e] ∧
      e.method = "POST" ∧
      e.url = "https://app.example.com/api/login" ∧
      e.is_success = true ∧
      e.response_time_ms = some ((t1 - t0) * 1000) ∧
      0 ≤ (t1 - t0) * 1000 := by
  have hm1 : on_request {} t0
      { method := "POST", url := "https://app.example.com/api/login",
        resource_type := some "xhr" }
      (NetworkMonitor.init {}) =
      { events := [{ timestamp := t0, method := "POST",
                     url := "https://app.example.com/api/login",
                     request_headers := some [],
                     resource_type := some "xhr" }],
        request_start_times := [("POST:https://app.example.com/api/login", t0)],
        enabled := true, max_payload_bytes := 262144 } := rfl
  have hm2 : on_response {} t1
      { request := { method := "POST", url := "https://app.example.com/api/login",
                     resource_type := some "xhr" },
        status := 200 }
      { events := [{ timestamp := t0, method := "POST",
                     url := "https://app.example.com/api/login",
                     request_headers := some [],
                     resource_type := some "xhr" }],
        request_start_times := [("POST:https://app.example.com/api/login", t0)],
        enabled := true, max_payload_bytes := 262144 } =
      { events := [{ timestamp := t0, method := "POST",
                     url := "https://app.example.com/api/login",
                     status := some 200,
                     response_time_ms := some ((t1 - t0) * 1000),
                     request_headers := some [],
                     response_headers := some [],
                     resource_type := some "xhr" }],
        request_start_times := [],
        enabled := true, max_payload_bytes := 262144 } := rfl
  rw [hm1, hm2]
  refine ⟨{ timestamp := t0, method := "POST",
            url := "https://app.example.com/api/login",
            status := some 200,
            response_time_ms := some ((t1 - t0) * 1000),
            request_headers := some [],
            response_headers := some [],
            resource_type := some "xhr" }, ?_, rfl, rfl, rfl, rfl,
    mul_nonneg (sub_nonneg.mpr h01) (by norm_num)⟩
  unfold get_recent_events
  simp [hwin]
  exact ⟨rfl, by linarith⟩

/-- **C7** witness: concrete instants 10, 11 and a query at 12 with a
5-second window. -/
theorem C7_network_correlation_witness :
    ∃ e, get_recent_events 12 5 true false
      (on_response {} 11
        { request := { method := "POST", url := "https://app.example.com/api/login",
                       resource_type := some "xhr" },
          status := 200 }
        (on_request {} 10
          { method := "POST", url := "https://app.example.com/api/login",
            resource_type := some "xhr" }
          (NetworkMonitor.init {}))) = [e] ∧
      e.method = "POST" ∧
      e.url = "https://app.example.com/api/login" ∧
      e.is_success = true ∧
      e.response_time_ms = some (((11 : ℚ) - 10) * 1000) ∧
      0 ≤ ((11 : ℚ) - 10) * 1000 :=
  C7_network_correlation 10 11 12 5 (by norm_num) (by norm_num)

/-- **C8** counterexample: the failure-reason fill is not one-time.
With two identical pending requests, both failure callbacks hit the
same (latest) event: its `failure` field is first `"net::ERR_A"`, then
overwritten with `"net::ERR_B"`, while the first pending event keeps
`none`. -/
theorem C8_counterexample :
    ((on_request_failed
        { method := "POST", url := "https://app.example.com/api/login",
          failure := some "net::ERR_A" }
        (on_request {} 1
          { method := "POST", url := "https://app.example.com/api/login" }
          (on_request {} 0
            { method := "POST", url := "https://app.example.com/api/login" }
            (NetworkMonitor.init {})))).events.map NetworkEvent.failure =
      [none, some "net::ERR_A"]) ∧
    ((on_request_failed
        { method := "POST", url := "https://app.example.com/api/login",
          failure := some "net::ERR_B" }
        (on_request_failed
          { method := "POST", url := "https://app.example.com/api/login",
            failure := some "net::ERR_A" }
          (on_request {} 1
            { method := "POST", url := "https://app.example.com/api/login" }
            (on_request {} 0
              { method := "POST", url := "https://app.example.com/api/login" }
              (NetworkMonitor.init {}))))).events.map NetworkEvent.failure =
      [none, some "net::ERR_B"]) :=
  ⟨rfl, rfl⟩

/-- **C8** (amended).  Status and latency are filled in at most once:
a response never touches an event whose status is already set (nor
does a failure callback), responses and failure callbacks append
nothing, and a new request only appends — it leaves every existing
event unchanged.  (The failure-reason fill, however, can rewrite the
failure of the latest still-pending matching event, as the
counterexample shows.) -/
theorem C8_status_filled_once (cfg : Config) (t : ℚ) (resp : ResponseInfo)
    (req : RequestInfo) (m : NetworkMonitor) :
    (∀ (i : Nat) (e : NetworkEvent), m.events[i]? = some e → e.status ≠ none →
      (on_response cfg t resp m).events[i]? = some e ∧
      (on_request_failed req m).events[i]? = some e) ∧
    (on_response cfg t resp m).events.length = m.events.length ∧
    (on_request_failed req m).events.length = m.events.length ∧
    (∀ (i : Nat) (e : NetworkEvent), m.events[i]? = some e →
      (on_request cfg t req m).events[i]? = some e) := by
  by_cases hen : m.enabled = true
  case neg =>
    have h1 : on_response cfg t resp m = m := by
      unfold on_response
      rw [if_pos hen]
    have h2 : on_request_failed req m = m := by
      unfold on_request_failed
      rw [if_pos hen]
    have h3 : on_request cfg t req m = m := by
      unfold on_request
      rw [if_pos hen]
    rw [h1, h2, h3]
    exact ⟨fun i e he _ => ⟨he, he⟩, rfl, rfl, fun i e he => he⟩
  have hnn : ¬¬m.enabled = true := fun hc => hc hen
  refine ⟨?_, ?_, ?_, ?_⟩
  · intro i e he hstat
    constructor
    · unfold on_response
      rw [if_neg hnn]
      cases hidx : lastIdxWhere (matchesPending resp.request) m.events with
      | none => simpa [hidx] using he
      | some j =>
        obtain ⟨x, hx, hpx⟩ := lastIdxWhere_spec _ _ _ hidx
        have hxnone : x.status = none := by
          have := (Bool.and_eq_true ..).mp hpx
          simpa using this.2
        have hij : j ≠ i := by
          intro hji
          rw [hji, he] at hx
          cases hx
          exact hstat hxnone
        simp only [hidx]
        rw [listModify_getElem?_ne _ j i _ hij]
        exact he
    · unfold on_request_failed
      rw [if_neg hnn]
      cases hidx : lastIdxWhere (matchesPending req) m.events with
      | none => simpa [hidx] using he
      | some j =>
        obtain ⟨x, hx, hpx⟩ := lastIdxWhere_spec _ _ _ hidx
        have hxnone : x.status = none := by
          have := (Bool.and_eq_true ..).mp hpx
          simpa using this.2
        have hij : j ≠ i := by
          intro hji
          rw [hji, he] at hx
          cases hx
          exact hstat hxnone
        simp only [hidx]
        rw [listModify_getElem?_ne _ j i _ hij]
        exact he
  · unfold on_response
    rw [if_neg hnn]
    cases hidx : lastIdxWhere (matchesPending resp.request) m.events with
    | none => simp [hidx]
    | some j => simp [hidx, listModify_length]
  · unfold on_request_failed
    rw [if_neg hnn]
    cases hidx : lastIdxWhere (matchesPending req) m.events with
    | none => simp [hidx]
    | some j => simp [hidx, listModify_length]
  · intro i e he
    unfold on_request
    rw [if_neg hnn]
    have hlt : i < m.events.length := (List.getElem?_eq_some_iff.mp he).1
    simpa [List.getElem?_append_left hlt] using he

/-- **C8** (amended) witness: a monitor holding one already-answered
event and one pending event; the answered event survives a response, a
failure callback and a new request untouched. -/
theorem C8_status_filled_once_witness :
    (({ events := [{ timestamp := 0, method := "POST", url := "https://x.example/api/a",
                     status := some 200 },
                   { timestamp := 1, method := "POST", url := "https://x.example/api/a" }],
        enabled := true } : NetworkMonitor).events[0]? =
      some { timestamp := 0, method := "POST", url := "https://x.example/api/a",
             status := some 200 }) ∧
    ((on_response {} 2
        { request := { method := "POST", url := "https://x.example/api/a" }, status := 500 }
        { events := [{ timestamp := 0, method := "POST", url := "https://x.example/api/a",
                       status := some 200 },
                     { timestamp := 1, method := "POST", url := "https://x.example/api/a" }],
          enabled := true }).events[0]? =
      some { timestamp := 0, method := "POST", url := "https://x.example/api/a",
             status := some 200 }) ∧
    ((on_request_failed
        { method := "POST", url := "https://x.example/api/a",
          failure := some "net::ERR" }
        { events := [{ timestamp := 0, method := "POST", url := "https://x.example/api/a",
                       status := some 200 },
                     { timestamp := 1, method := "POST", url := "https://x.example/api/a" }],
          enabled := true }).events[0]? =
      some { timestamp := 0, method := "POST", url := "https://x.example/api/a",
             status := some 200 }) :=
  ⟨rfl,
   ((C8_status_filled_once {} 2
      { request := { method := "POST", url := "https://x.example/api/a" }, status := 500 }
      { method := "POST", url := "https://x.example/api/a", failure := some "net::ERR" }
      { events := [{ timestamp := 0, method := "POST", url := "https://x.example/api/a",
                     status := some 200 },
                   { timestamp := 1, method := "POST", url := "https://x.example/api/a" }],
        enabled := true }).1 0
      { timestamp := 0, method := "POST", url := "https://x.example/api/a",
        status := some 200 } rfl (by decide)).1,
   ((C8_status_filled_once {} 2
      { request := { method := "POST", url := "https://x.example/api/a" }, status := 500 }
      { method := "POST", url := "https://x.example/api/a", failure := some "net::ERR" }
      { events := [{ timestamp := 0, method := "POST", url := "https://x.example/api/a",
                     status := some 200 },
                   { timestamp := 1, method := "POST", url := "https://x.example/api/a" }],
        enabled := true }).1 0
      { timestamp := 0, method := "POST", url := "https://x.example/api/a",
        status := some 200 } rfl (by decide)).2⟩

/-- A string matching the SSN body ends in a digit. -/
theorem ssnShape_last (l : List Char) (h : ssnShape l = true) :
    ∃ c, l.getLast? = some c ∧ c.isDigit = true := by
  unfold ssnShape at h
  split at h
  case _ a b c d e f g h' i =>
    simp only [Bool.and_eq_true] at h
    exact ⟨i, by simp, h.2⟩
  case _ =>
    exact absurd h (by decide)

/-- What `re.match(r'^\d{13,19}$', v)` accepts: after removing the
optional trailing newline, 13–19 digits. -/
theorem reMatchCard_shape (cs : List Char) (h : reMatchCard cs = true) :
    (stripTrailingNewline cs).all Char.isDigit = true ∧
    13 ≤ (stripTrailingNewline cs).length ∧
    (stripTrailingNewline cs).length ≤ 19 := by
  unfold reMatchCard at h
  rw [List.any_eq_true] at h
  obtain ⟨k, hk, hcond⟩ := h
  rw [List.mem_range] at hk
  have hcond' := hcond
  simp only [Bool.and_eq_true, decide_eq_true_eq] at hcond'
  obtain ⟨⟨⟨h13, hkle⟩, hdig⟩, hdollar⟩ := hcond'
  unfold dollarAt at hdollar
  simp only [Bool.or_eq_true, Bool.and_eq_true, decide_eq_true_eq] at hdollar
  rcases hdollar with hend | ⟨hk1, hnl⟩
  · have htake : cs.take k = cs := by
      rw [hend]
      exact List.take_length ..
    rw [htake] at hdig
    have hstrip : stripTrailingNewline cs = cs := by
      unfold stripTrailingNewline
      rw [if_neg]
      intro hl
      have hmem := List.mem_of_getLast?_eq_some hl
      have := List.all_eq_true.mp hdig _ hmem
      exact absurd this (by decide)
    rw [hstrip]
    exact ⟨hdig, by omega, by omega⟩
  · have hstrip : stripTrailingNewline cs = cs.dropLast := by
      unfold stripTrailingNewline
      rw [if_pos hnl]
    have hdrop : cs.dropLast = cs.take k := by
      rw [List.dropLast_eq_take]
      congr 1
      omega
    rw [hstrip, hdrop]
    refine ⟨hdig, ?_, ?_⟩
    · rw [List.length_take]
      omega
    · rw [List.length_take]
      omega

/-- What `re.match(r'^\d{3}-\d{2}-\d{4}$', v)` accepts: after removing
the optional trailing newline, exactly `DDD-DD-DDDD`. -/
theorem reMatchSSN_shape (cs : List Char) (h : reMatchSSN cs = true) :
    ssnShape (stripTrailingNewline cs) = true ∧
    (stripTrailingNewline cs).length = 11 := by
  unfold reMatchSSN at h
  simp only [Bool.and_eq_true, decide_eq_true_eq] at h
  obtain ⟨⟨hlen, hshape⟩, hdollar⟩ := h
  unfold dollarAt at hdollar
  simp only [Bool.or_eq_true, Bool.and_eq_true, decide_eq_true_eq] at hdollar
  rcases hdollar with hend | ⟨hk1, hnl⟩
  · have htake : cs.take 11 = cs := by
      rw [hend]
      exact List.take_length ..
    rw [htake] at hshape
    have hstrip : stripTrailingNewline cs = cs := by
      unfold stripTrailingNewline
      rw [if_neg]
      intro hl
      obtain ⟨c, hc, hcd⟩ := ssnShape_last cs hshape
      rw [hl] at hc
      cases hc
      exact absurd hcd (by decide)
    rw [hstrip]
    exact ⟨hshape, by omega⟩
  · have hstrip : stripTrailingNewline cs = cs.dropLast := by
      unfold stripTrailingNewline
      rw [if_pos hnl]
    have hdrop : cs.dropLast = cs.take 11 := by
      rw [List.dropLast_eq_take]
      congr 1
      omega
    rw [hstrip, hdrop]
    refine ⟨hshape, ?_⟩
    rw [List.length_take]
    omega

/-- **C10** counterexample: the card pattern also matches a value with
a trailing newline, which does not consist entirely of digits — so the
pattern does not match "only when the entire value consists of 13–19
digits". -/
theorem C10_counterexample :
    reMatchCard "4111111111111111\n".data = true ∧
    "4111111111111111\n".data.all Char.isDigit = false :=
  ⟨by decide, by decide⟩

/-- **C10** (amended).  The credit-card and SSN patterns match only
when the value, after dropping a single trailing newline if present,
consists of 13–19 digits (resp. is exactly `DDD-DD-DDDD`); in
particular a fill value embedding a card number with spaces between
digit groups (`"4111 1111 1111 1111"`) is allowed by `validate_action`
and reported as not requiring human confirmation, even when the
sensitive-action-confirmation policy is active. -/
theorem C10_fill_patterns_anchored :
    (∀ cs : List Char, reMatchCard cs = true →
      (stripTrailingNewline cs).all Char.isDigit = true ∧
      13 ≤ (stripTrailingNewline cs).length ∧
      (stripTrailingNewline cs).length ≤ 19) ∧
    (∀ cs : List Char, reMatchSSN cs = true →
      ssnShape (stripTrailingNewline cs) = true ∧
      (stripTrailingNewline cs).length = 11) ∧
    (∀ (cfg : Config) (v : ValidatorState) (current_url : String)
        (a : AgentAction),
      a.action = ActionType.FILL → a.value = "4111 1111 1111 1111" →
      validate_action cfg v a current_url = (true, none) ∧
      requires_human_confirmation cfg a = false) := by
  refine ⟨reMatchCard_shape, reMatchSSN_shape, ?_⟩
  intro cfg v current_url a htag hval
  constructor
  · unfold validate_action
    rw [if_neg (by rw [htag]; decide), if_neg (by rw [htag]; decide),
        if_pos htag]
    unfold validate_fill
    rw [if_neg (fun hand => by
          rw [hval] at hand
          exact absurd hand.1 (by decide)),
        if_neg (fun hand => by
          rw [hval] at hand
          exact absurd hand.1 (by decide))]
  · unfold requires_human_confirmation
    by_cases hconf : cfg.security.confirm_sensitive_actions = true
    · rw [if_neg (by simp [hconf]), if_neg (by rw [htag]; decide),
          if_pos htag, hval]
      decide
    · rw [if_pos (by simpa using hconf)]

/-- **C10** (amended) witness: the characterizations applied to the
newline-suffixed card value, and the spaced card value run through the
default-policy validator. -/
theorem C10_fill_patterns_anchored_witness :
    ((stripTrailingNewline "4111111111111111\n".data).all Char.isDigit = true ∧
      13 ≤ (stripTrailingNewline "4111111111111111\n".data).length ∧
      (stripTrailingNewline "4111111111111111\n".data).length ≤ 19) ∧
    (ssnShape (stripTrailingNewline "123-45-6789\n".data) = true ∧
      (stripTrailingNewline "123-45-6789\n".data).length = 11) ∧
    (validate_action {} {}
        { action := "fill", selector := "input#cc", value := "4111 1111 1111 1111" }
        "https://shop.example.com" = (true, none) ∧
      requires_human_confirmation {}
        { action := "fill", selector := "input#cc", value := "4111 1111 1111 1111" } =
        false) :=
  ⟨C10_fill_patterns_anchored.1 "4111111111111111\n".data (by decide),
   C10_fill_patterns_anchored.2.1 "123-45-6789\n".data (by decide),
   C10_fill_patterns_anchored.2.2 {} {} "https://shop.example.com"
     { action := "fill", selector := "input#cc", value := "4111 1111 1111 1111" }
     rfl rfl⟩

end MiniAtlas
